import Mathlib

/-
Verification of the bonono-server replication engine and peer transport.

Shallow embedding of:
  - DbManager (src/src/index.ts, third revision in the file): insertOne, find,
    _onReceive;
  - PubSub (src/unnamed/part_000, pub-sub.ts): sendToPeers, _onPeerMessage,
    the outbound socket data handler, _startConnectingToPeers, _tryConnectToPeer,
    _isSelfAddress.

JavaScript runtime semantics that the embedded code depends on (truthiness,
loose equality with 0, toString, String.split, parseInt, regex matching) are
modelled explicitly below.  External collaborators (the MongoDB driver, the
ed25519 library together with JSON serialization of an entry) are modelled at
their documented boundary: MongoDB insertOne enforces a unique index on _id and
throws a duplicate-key error on violation; signature verification is an opaque
oracle that can answer true, false, or throw.
-/

/-! ## JavaScript value model (for the entry _id field) -/

/-- Model of the JavaScript values an entry _id can hold: undefined, null,
booleans, integers, NaN, and strings. -/
inductive JsVal where
  | undef
  | jsNull
  | boolV (b : Bool)
  | numV (n : Int)
  | nanV
  | strV (s : String)
deriving DecidableEq

/-- JavaScript truthiness of a value: undefined, null, false, 0, NaN and the
empty string are falsy; everything else is truthy.  Used for the negation
operator in the guard on entry._id. -/
def jsFalsy : JsVal → Bool
  | .undef => true
  | .jsNull => true
  | .boolV b => !b
  | .numV n => n == 0
  | .nanV => true
  | .strV s => s == ""

/-- Numeric value of a list of decimal digit characters. -/
def digitsVal (l : List Char) : Nat :=
  l.foldl (fun n c => n * 10 + (c.toNat - 48)) 0

/-- Whitespace test used by the trim steps of the JavaScript numeric
conversions. -/
def isWs (c : Char) : Bool :=
  c == ' ' || c == '\t' || c == '\n' || c == '\r'

/-- Characters with leading and trailing whitespace removed. -/
def trimChars (l : List Char) : List Char :=
  ((l.dropWhile isWs).reverse.dropWhile isWs).reverse

/-- Model of the JavaScript ToNumber conversion on strings, restricted to
integral decimal literals: a whitespace-only string converts to 0, a signed
decimal digit string converts to its value, anything else to NaN (none).
Fractional and exponent forms are not modelled; they only differ on strings
that are truthy, where the guard embedded below never consults this value. -/
def jsStrToNumber (s : String) : Option Int :=
  let t := trimChars s.data
  if t = [] then some 0
  else
    let neg := t.headD ' ' == '-'
    let body := if neg || t.headD ' ' == '+' then t.tail else t
    if body ≠ [] && body.all Char.isDigit then
      some (if neg then -(digitsVal body : Int) else (digitsVal body : Int))
    else none

/-- JavaScript loose equality of a value with the number 0 (the comparison
entry._id != 0 in the source).  Notably the empty string, false and 0 itself
are all loosely equal to 0, while undefined, null and NaN are not. -/
def jsLooseEqZero : JsVal → Bool
  | .undef => false
  | .jsNull => false
  | .boolV b => !b
  | .numV n => n == 0
  | .nanV => false
  | .strV s => jsStrToNumber s == some 0

/-- Model of JavaScript toString on an _id value.  The undefined and null
branches would in fact throw a TypeError at runtime; they are unreachable in
insertOne because the _id guard has already rejected those values. -/
def jsToString : JsVal → String
  | .undef => "undefined"
  | .jsNull => "null"
  | .boolV true => "true"
  | .boolV false => "false"
  | .numV n => toString n
  | .nanV => "NaN"
  | .strV s => s

/-- Model of JavaScript parseInt on a string: skip leading whitespace, read an
optional sign and then the longest decimal digit run; NaN (none) when there is
no digit.  Used for parseInt(portStr) in _tryConnectToPeer. -/
def jsParseInt (s : String) : Option Int :=
  let t := s.data.dropWhile isWs
  let neg := t.headD ' ' == '-'
  let body := if neg || t.headD ' ' == '+' then t.tail else t
  let ds := body.takeWhile Char.isDigit
  if ds = [] then none
  else some (if neg then -(digitsVal ds : Int) else (digitsVal ds : Int))

/-- Model of the JavaScript String.split on a one-character separator: the
list of separated chunks, with empty chunks kept, never empty as a list. -/
def splitChar (sep : Char) : List Char → List (List Char)
  | [] => [[]]
  | c :: rest =>
      if c == sep then [] :: splitChar sep rest
      else
        match splitChar sep rest with
        | [] => [[c]]
        | p :: ps => (c :: p) :: ps

/-- Truthiness of an optional string (a JavaScript string-or-null-or-undefined
value): absent and empty strings are falsy. -/
def optTruthy : Option String → Bool
  | none => false
  | some s => !(s == "")

/-! ## Entries and the public key resolution of insertOne -/

/-- An application entry: the _id field (any JavaScript value), the _signature
field (hex string), and the remaining schema-free payload fields. -/
structure Entry where
  _id : JsVal
  _signature : String
  fields : List (String × String)
deriving DecidableEq

/-- Lowercase hex digit test, the character class [0-9a-f] of the ownership
regex in insertOne. -/
def isHexLower (c : Char) : Bool :=
  c.isDigit || ('a' ≤ c && c ≤ 'f')

/-- Model of id.match(new RegExp applied in insertOne, pattern caret [0-9a-f]+
then a slash): true exactly when the string starts with one or more lowercase
hex digits immediately followed by a slash. -/
def jsMatchHexSlash (s : String) : Bool :=
  let p := s.data.takeWhile isHexLower
  !p.isEmpty && (s.data.drop p.length).headD ' ' == '/'

/-- Model of id.split(the slash character) indexed at 0: the text before the
first slash, or the whole string when it has no slash. -/
def firstSegment (s : String) : String :=
  ⟨s.data.takeWhile (fun c => !(c == '/'))⟩

/-- Embedding of the public key resolution of DbManager.insertOne
(src/src/index.ts line 194): publicKeyOwner when truthy, else the hex prefix
of the id when it matches the ownership pattern, else null. -/
def resolvePublicKey (publicKeyOwner : Option String) (id : String) : Option String :=
  if optTruthy publicKeyOwner then publicKeyOwner
  else if jsMatchHexSlash id then some (firstSegment id) else none

/-! ## Wire model: replication messages, frames, and PubSub dispatch -/

/-- A JavaScript object as read by the replication code paths: the fields the
source ever constructs or destructures on a replication message.  Optional
fields model absent properties; the object literal built by insertOne carries
action, name, publicKeyOwner and entry only, so its publicKey and
excludeAddresses fields are none. -/
structure ReplMsg where
  action : String
  name : String
  publicKeyOwner : Option String
  publicKey : Option String
  entry : Entry
  excludeAddresses : Option (List String)
deriving DecidableEq

/-- The replication message literal built in DbManager.insertOne
(src/src/index.ts line 231): action insertOne with name, publicKeyOwner and
entry; no publicKey field and no excludeAddresses field. -/
def mkReplMsg (name : String) (publicKeyOwner : Option String) (entry : Entry) : ReplMsg :=
  { action := "insertOne", name := name, publicKeyOwner := publicKeyOwner,
    publicKey := none, entry := entry, excludeAddresses := none }

/-- A value travelling on a peer socket, after JSON decode: a PeerInfo
handshake frame (type tag 0 with address and port), a PeerData frame (type tag
1 wrapping a payload), or a bare object carrying no type tag (what sendToPeers
actually writes). -/
inductive WireVal where
  | infoFrame (address : String) (port : Int)
  | dataFrame (payload : WireVal)
  | replMsg (m : ReplMsg)
deriving DecidableEq

/-- Embedding of PubSub.sendToPeers (src/unnamed/part_000 lines 40 to 46): the
object is JSON serialized as-is, with no frame wrapper and no discriminator,
and the same bytes are written to every socket in _addressToSocket. -/
def sendToPeers (connectedAddresses : List String) (m : ReplMsg) : List (String × WireVal) :=
  connectedAddresses.map (fun a => (a, WireVal.replMsg m))

/-- The action the transport takes on a decoded peer message. -/
inductive PeerDispatch where
  | registerPeer (address : String)
  | deliver (v : WireVal)
  | ignored
deriving DecidableEq

/-- Embedding of PubSub._onPeerMessage (src/unnamed/part_000 lines 181 to
201), the dispatch on server-side (inbound) connections: a switch on the type
field.  A PeerInfo frame registers the peer under address:port; a PeerData
frame delivers its data field to _onPeerReceived, which invokes the registered
callback; a bare object has no type field, matches no case, and is silently
ignored. -/
def onPeerMessage : WireVal → PeerDispatch
  | .infoFrame a p => .registerPeer (a ++ ":" ++ toString p)
  | .dataFrame d => .deliver d
  | .replMsg _ => .ignored

/-- Embedding of the data handler installed on outbound sockets in
PubSub._tryConnectToPeer (src/unnamed/part_000 lines 163 to 172): the decoded
object is passed whole to _onPeerReceived, hence to the registered callback,
with no frame inspection and no payload unwrapping. -/
def onOutboundSocketData (v : WireVal) : PeerDispatch :=
  .deliver v

/-! ## Storage adapter model and the insertOne embedding -/

/-- Collection contents keyed by collection address. -/
abbrev MongoStore := List (String × List Entry)

/-- Contents of the collection at an address (empty when never written). -/
def getCollection (st : MongoStore) (address : String) : List Entry :=
  (st.lookup address).getD []

/-- Store with one entry appended to the collection at an address. -/
def storeAdd : MongoStore → String → Entry → MongoStore
  | [], a, e => [(a, [e])]
  | (b, es) :: rest, a, e =>
      if b = a then (b, es ++ [e]) :: rest else (b, es) :: storeAdd rest a e

/-- Model of the external MongoDB collection.insertOne at its documented
boundary: the unique index on _id (the uniqueness constraint on the entry
identifier in the storage adapter contract of spec section 6) makes an insert
of a duplicate _id throw a duplicate-key error; otherwise the insert succeeds
and reports the inserted id (the _id of the entry, which is present whenever
insertOne reaches this call). -/
def mongoInsertOne (coll : List Entry) (e : Entry) : Except String JsVal :=
  if coll.any (fun x => x._id == e._id) then Except.error "E11000 duplicate key"
  else Except.ok e._id

/-- Outcome of one DbManager.insertOne call.  The source returns null at every
failure site; the constructors below tag the distinct return sites, each of
which logs a distinct message in the source. -/
inductive InsertOutcome where
  | notConnected
  | malformedEntry
  | missingOwner
  | sigInvalid
  | sigException
  | storeError (msg : String)
  | ok (insertedId : JsVal)
deriving DecidableEq

/-- Answer of the signature verification oracle: a boolean verdict, or a
thrown exception (malformed signature or key encoding). -/
inductive VerifyOutcome where
  | ok (b : Bool)
  | exn
deriving DecidableEq

/-- A verification oracle models ed25519.verify composed with the canonical
JSON serialization of the entry: it receives the signature string, the entry
with _signature cleared to the empty string (the object spread in the source),
and the resolved public key. -/
abbrev VerifyOracle := String → Entry → String → VerifyOutcome

/-- Collection address as computed by DbManager.insertOne (src/src/index.ts
line 214): name/publicKeyOwner when the owner argument is truthy, else name. -/
def insertAddress (name : String) (publicKeyOwner : Option String) : String :=
  if optTruthy publicKeyOwner then name ++ "/" ++ publicKeyOwner.getD "" else name

/-- Collection address as computed by DbManager.find (src/src/index.ts line
249): name/publicKeyOwner when the owner argument is truthy, else name. -/
def findAddress (name : String) (publicKeyOwner : Option String) : String :=
  if optTruthy publicKeyOwner then name ++ "/" ++ publicKeyOwner.getD "" else name

/-- Result of one insertOne call: the returned outcome, the store afterwards,
the insert calls issued to the storage adapter, and the messages written to
peers as address-value pairs. -/
structure InsertRun where
  outcome : InsertOutcome
  store : MongoStore
  storageCalls : List (String × Entry)
  sent : List (String × WireVal)
deriving DecidableEq

/-- Embedding of DbManager.insertOne (src/src/index.ts lines 182 to 240).
Inputs: the verification oracle, whether _db is non-null, the store contents,
the keys of _addressToSocket (currently connected peer addresses), and the
call arguments.  The stages mirror the source in order: the _db guard; the
guard on entry._id (falsy and not loosely equal to 0); public key resolution;
signature verification inside try/catch; collection address; the adapter
insert inside try/catch, where a thrown duplicate-key error lands in the
generic catch; on success, sendToPeers when notifyPeers is set.  The defensive
check for a falsy driver result in the source is unreachable in the adapter
model (the driver always returns a result object) and is not represented. -/
def insertOne (verify : VerifyOracle) (dbConnected : Bool) (store : MongoStore)
    (connectedPeers : List String) (name : String)
    (publicKeyOwner : Option String) (entry : Entry) (notifyPeers : Bool) : InsertRun :=
  if !dbConnected then ⟨.notConnected, store, [], []⟩
  else if jsFalsy entry._id && !jsLooseEqZero entry._id then ⟨.malformedEntry, store, [], []⟩
  else
    let id := jsToString entry._id
    let publicKey := resolvePublicKey publicKeyOwner id
    if !optTruthy publicKey then ⟨.missingOwner, store, [], []⟩
    else
      match verify entry._signature { entry with _signature := "" } (publicKey.getD "") with
      | .exn => ⟨.sigException, store, [], []⟩
      | .ok false => ⟨.sigInvalid, store, [], []⟩
      | .ok true =>
        let address := insertAddress name publicKeyOwner
        match mongoInsertOne (getCollection store address) entry with
        | .error msg => ⟨.storeError msg, store, [(address, entry)], []⟩
        | .ok insertedId =>
            ⟨.ok insertedId, storeAdd store address entry, [(address, entry)],
             if notifyPeers then sendToPeers connectedPeers (mkReplMsg name publicKeyOwner entry)
             else []⟩

/-- Outcome is the success constructor. -/
def isOkOutcome : InsertOutcome → Bool
  | .ok _ => true
  | _ => false

/-- The action DbManager._onReceive takes on an object delivered by the
transport. -/
inductive DbReceiveAction where
  | invokeInsertOne (name : String) (publicKey : Option String) (entry : Entry)
      (notifyPeers : Bool)
  | noAction
deriving DecidableEq

/-- Embedding of DbManager._onReceive (src/src/index.ts lines 170 to 179): a
switch on obj.action; the insertOne case destructures name, publicKey and
entry from the object (note the object built by insertOne carries the key
under publicKeyOwner, not publicKey) and invokes insertOne with notifyPeers
false.  Frames and objects with any other action match no case. -/
def dbOnReceive : WireVal → DbReceiveAction
  | .replMsg m =>
      if m.action == "insertOne" then .invokeInsertOne m.name m.publicKey m.entry false
      else .noAction
  | _ => .noAction

/-! ## Peer transport: connection loop and self-connection guard -/

/-- Embedding of PubSub._isSelfAddress (src/unnamed/part_000 lines 52 to 54):
the host is the loopback alias localhost or 127.0.0.1, or equals the
configured self address. -/
def isSelfAddress (serverAddress host : String) : Bool :=
  host == "localhost" || host == "127.0.0.1" || host == serverAddress

/-- Result of one PubSub._tryConnectToPeer call: skip because a connection to
the address already exists, skip because the port is missing or invalid, skip
because the address denotes this node itself, or dial the host and port. -/
inductive ConnectAction where
  | alreadyConnected
  | invalidPort
  | skipSelf
  | dial (host : String) (port : Int)
deriving DecidableEq

/-- Embedding of PubSub._tryConnectToPeer (src/unnamed/part_000 lines 126 to
142) up to the dial decision.  Inputs: the keys of _addressToSocket, the
configured self address, the listening port, and the candidate address.  The
guards mirror the source in order: the already-connected check, the NaN check
on the parsed port, and the self-address check; otherwise the node dials. -/
def tryConnectToPeer (connectedAddresses : List String) (serverAddress : String)
    (serverPort : Nat) (address : String) : ConnectAction :=
  if connectedAddresses.contains address then .alreadyConnected
  else
    let parts := splitChar ':' address.data
    let host : String := ⟨parts.headD []⟩
    match jsParseInt ⟨parts.getD 1 []⟩ with
    | none => .invalidPort
    | some port =>
        if isSelfAddress serverAddress host && port == (serverPort : Int) then .skipSelf
        else .dial host port

/-- Abstract connection-registry state of a PubSub node: how many of the
registered connections were dialed by this node (outbound) and how many were
accepted and confirmed by handshake (inbound).  _addressToSocket holds both,
so its size is the sum. -/
structure PSState where
  outbound : Nat
  inbound : Nat
deriving DecidableEq

/-- Size of _addressToSocket: all live registered connections. -/
def liveConnections (s : PSState) : Nat :=
  s.outbound + s.inbound

/-- The guard of PubSub._startConnectingToPeers (src/unnamed/part_000 lines
115 to 124): a connection attempt is made only when the registry size is below
Math.min(maxConnections, addresses.length / 2), with JavaScript real division
by 2, modelled over the rationals. -/
def connectGuard (maxConnections peerCount : Nat) (s : PSState) : Prop :=
  (liveConnections s : ℚ) < min (maxConnections : ℚ) ((peerCount : ℚ) / 2)

/-- One atomic event of the transport affecting the connection registry, for a
fixed maxConnections and configured peer-list length: a reconnection-loop tick
whose dial succeeds (guarded), an inbound connection confirmed by handshake
(unguarded: the server accepts any number of inbound connections), or either
side closing. -/
inductive PubSubStep (mc pc : Nat) : PSState → PSState → Prop where
  | connect (s : PSState) (h : connectGuard mc pc s) :
      PubSubStep mc pc s ⟨s.outbound + 1, s.inbound⟩
  | accept (s : PSState) : PubSubStep mc pc s ⟨s.outbound, s.inbound + 1⟩
  | closeOutbound (s : PSState) : PubSubStep mc pc s ⟨s.outbound - 1, s.inbound⟩
  | closeInbound (s : PSState) : PubSubStep mc pc s ⟨s.outbound, s.inbound - 1⟩

/-- Registry states reachable from the empty registry by transport events. -/
def PubSubReachable (mc pc : Nat) (s : PSState) : Prop :=
  Relation.ReflTransGen (PubSubStep mc pc) ⟨0, 0⟩ s

/-- Concrete verification oracle that accepts every signature, standing for
ed25519.verify on a correctly signed entry. -/
def acceptAll : VerifyOracle := fun _ _ _ => .ok true

/-- Concrete verification oracle that rejects every signature, standing for
ed25519.verify on a tampered entry. -/
def rejectAll : VerifyOracle := fun _ _ _ => .ok false

/-- Concrete well-formed entry used by concrete runs: an owned-style id with a
hex prefix, a signature string, one payload field. -/
def exEntry : Entry :=
  ⟨.strV "ab/1", "aabb", [("title", "Moon Safari")]⟩

/-! ## Theorems -/

/-- Chars before the first slash coincide with the maximal hex prefix whenever
that prefix is followed by a slash (slash is not a hex character). -/
theorem takeWhile_slash_eq_takeWhile_hex (l : List Char)
    (h : (l.drop (l.takeWhile isHexLower).length).headD ' ' = '/') :
    l.takeWhile (fun c => !(c == '/')) = l.takeWhile isHexLower := by
  induction l with
  | nil => rfl
  | cons c rest ih =>
    by_cases hc : isHexLower c = true
    · have hcs : (c == '/') = false := by
        cases hq : (c == '/') with
        | true =>
          have hce : c = '/' := eq_of_beq hq
          rw [hce] at hc
          exact absurd hc (by decide)
        | false => rfl
      simp only [List.takeWhile_cons, hc, hcs, Bool.not_false, if_true] at h ⊢
      simp only [List.length_cons, List.drop_succ_cons] at h
      rw [ih h]
    · have hc0 : isHexLower c = false := by
        cases hq : isHexLower c with
        | false => rfl
        | true => exact absurd hq hc
      simp only [List.takeWhile_cons, hc0] at h
      simp at h
      simp [List.takeWhile_cons, h]
      decide

/-- C9: insertOne and find resolve the same (name, ownerPublicKey) pair to the
same collection address, namely name/ownerPublicKey when a truthy owner is
given and name alone otherwise, so an inserted entry is queried from the same
storage namespace it was written to. -/
theorem c9_thm : ∀ (name : String) (owner : Option String),
    insertAddress name owner = findAddress name owner
    ∧ insertAddress name owner
        = (if optTruthy owner then name ++ "/" ++ owner.getD "" else name) := by
  intro name owner
  exact ⟨rfl, rfl⟩

/-- C2 (amended): sendToPeers serializes the application message bare, with no
Data-frame wrapper and no PeerData discriminator, and writes it to every
connected peer.  On server-side (inbound) connections a received Data frame
delivers its payload to the single registered callback and a bare message is
silently ignored (the switch on the missing type field matches no case); on
outbound connections every decoded object, frame or not, is passed whole to
the callback. -/
theorem c2_amended : ∀ (peers : List String) (m : ReplMsg) (d v : WireVal),
    sendToPeers peers m = peers.map (fun a => (a, WireVal.replMsg m))
    ∧ onPeerMessage (WireVal.dataFrame d) = PeerDispatch.deliver d
    ∧ onPeerMessage (WireVal.replMsg m) = PeerDispatch.ignored
    ∧ onOutboundSocketData v = PeerDispatch.deliver v := by
  intro peers m d v
  exact ⟨rfl, rfl, rfl, rfl⟩

/-- C2 (counterexample): at a concrete broadcast, the value written to the
peer is the bare replication message, which differs from the PeerData frame
the claim requires; such a bare message is ignored, not delivered, by the
server-side dispatch; and on the outbound side a received Data frame is handed
to the callback whole rather than as its decoded payload. -/
theorem c2_counterexample :
    sendToPeers ["peer1:4001"] (mkReplMsg "songs" none exEntry)
      = [("peer1:4001", WireVal.replMsg (mkReplMsg "songs" none exEntry))]
    ∧ WireVal.replMsg (mkReplMsg "songs" none exEntry)
        ≠ WireVal.dataFrame (WireVal.replMsg (mkReplMsg "songs" none exEntry))
    ∧ onPeerMessage (WireVal.replMsg (mkReplMsg "songs" none exEntry)) = PeerDispatch.ignored
    ∧ onOutboundSocketData (WireVal.dataFrame (WireVal.replMsg (mkReplMsg "songs" none exEntry)))
        = PeerDispatch.deliver (WireVal.dataFrame (WireVal.replMsg (mkReplMsg "songs" none exEntry)))
    ∧ PeerDispatch.deliver (WireVal.dataFrame (WireVal.replMsg (mkReplMsg "songs" none exEntry)))
        ≠ PeerDispatch.deliver (WireVal.replMsg (mkReplMsg "songs" none exEntry)) := by
  decide

/-- C10: a replication message received from a peer whose action is insertOne
makes the engine invoke insertOne with notifyPeers false (note the engine
reads the publicKey field, which the messages built by insertOne do not carry,
so the owner argument of the nested call is none there), and every insertOne
call with notifyPeers false sends nothing to any peer: an entry applied from
an inbound peer message is never forwarded. -/
theorem c10_thm :
    (∀ m : ReplMsg, m.action = "insertOne" →
      dbOnReceive (WireVal.replMsg m)
        = DbReceiveAction.invokeInsertOne m.name m.publicKey m.entry false)
    ∧ (∀ (verify : VerifyOracle) (dbc : Bool) (store : MongoStore) (peers : List String)
        (name : String) (owner : Option String) (entry : Entry),
        (insertOne verify dbc store peers name owner entry false).sent = []) := by
  constructor
  · intro m hm
    simp [dbOnReceive, hm]
  · intro verify dbc store peers name owner entry
    simp only [insertOne]
    repeat' split <;> try rfl

/-- C10 (witness): concrete instance of the theorem at a received insertOne
message and a concrete non-notifying run. -/
theorem c10_witness :
    dbOnReceive (WireVal.replMsg (mkReplMsg "songs" (some "k") exEntry))
      = DbReceiveAction.invokeInsertOne "songs" none exEntry false
    ∧ (insertOne acceptAll true [] ["peer1:4001"] "songs" (some "k") exEntry false).sent = [] :=
  ⟨c10_thm.1 (mkReplMsg "songs" (some "k") exEntry) rfl,
   c10_thm.2 acceptAll true [] ["peer1:4001"] "songs" (some "k") exEntry⟩

/-- C6: a candidate address whose host part is a loopback alias or equals the
configured self address, and whose parsed port equals the listening port, is
never dialed by _tryConnectToPeer: the node never connects to an address that
resolves to its own listening host and port. -/
theorem c6_thm : ∀ (connected : List String) (serverAddress : String) (serverPort : Nat)
    (address : String),
    isSelfAddress serverAddress ⟨(splitChar ':' address.data).headD []⟩ = true →
    jsParseInt ⟨(splitChar ':' address.data).getD 1 []⟩ = some (serverPort : Int) →
    ∀ (h : String) (p : Int),
      tryConnectToPeer connected serverAddress serverPort address ≠ ConnectAction.dial h p := by
  intro connected serverAddress serverPort address hself hport h p
  unfold tryConnectToPeer
  split
  · simp
  · simp at hself hport
    simp [hself, hport]

/-- C6 (witness): the theorem at the concrete candidate localhost:5001 for a
node listening on port 5001 with self address 10.0.0.1. -/
theorem c6_witness :
    tryConnectToPeer [] "10.0.0.1" 5001 "localhost:5001" ≠ ConnectAction.dial "localhost" 5001 :=
  c6_thm [] "10.0.0.1" 5001 "localhost:5001" (by decide) (by decide) "localhost" 5001

/-- C8: insertOne resolves the effective public key as ownerPublicKey when a
truthy owner is given; otherwise, when the entry id matches the hex-prefix
ownership pattern, the segment before the first slash — which then equals the
maximal hex prefix — is taken as the key; otherwise the call fails with
MissingOwner and nothing is stored or propagated. -/
theorem c8_thm : ∀ (owner : Option String) (id : String),
    (optTruthy owner = true → resolvePublicKey owner id = owner)
    ∧ (optTruthy owner = false → jsMatchHexSlash id = true →
        resolvePublicKey owner id = some (firstSegment id)
        ∧ firstSegment id = ⟨id.data.takeWhile isHexLower⟩)
    ∧ (optTruthy owner = false → jsMatchHexSlash id = false →
        ∀ (verify : VerifyOracle) (store : MongoStore) (peers : List String) (name : String)
          (entry : Entry) (notify : Bool),
          jsToString entry._id = id →
          (jsFalsy entry._id && !jsLooseEqZero entry._id) = false →
          (insertOne verify true store peers name owner entry notify).outcome
              = InsertOutcome.missingOwner
          ∧ (insertOne verify true store peers name owner entry notify).storageCalls = []
          ∧ (insertOne verify true store peers name owner entry notify).sent = []
          ∧ (insertOne verify true store peers name owner entry notify).store = store) := by
  intro owner id
  refine ⟨?_, ?_, ?_⟩
  · intro ht
    simp [resolvePublicKey, ht]
  · intro hf hm
    refine ⟨by simp [resolvePublicKey, hf, hm], ?_⟩
    unfold firstSegment
    have hside : (id.data.drop (id.data.takeWhile isHexLower).length).headD ' ' = '/' := by
      unfold jsMatchHexSlash at hm
      simp only [Bool.and_eq_true, beq_iff_eq] at hm
      exact hm.2
    exact congrArg String.mk (takeWhile_slash_eq_takeWhile_hex id.data hside)
  · intro hf hm verify store peers name entry notify hid hguard
    have hres : resolvePublicKey owner (jsToString entry._id) = none := by
      rw [hid]
      simp [resolvePublicKey, hf, hm]
    refine ⟨?_, ?_, ?_, ?_⟩ <;> simp [insertOne, hguard, hres, optTruthy]

/-- C8 (witness): the theorem at a concrete owned-style id with no explicit
owner, showing the resolved key is the hex prefix before the slash. -/
theorem c8_witness :
    resolvePublicKey none "abc123/xyz" = some (firstSegment "abc123/xyz")
    ∧ firstSegment "abc123/xyz" = ⟨("abc123/xyz" : String).data.takeWhile isHexLower⟩ :=
  (c8_thm none "abc123/xyz").2.1 rfl (by decide)

/-- C4: when the resolved key is available and the verification oracle does
not answer true — a false verdict or a thrown exception, the two
SignatureInvalid return sites of the source — insertOne fails with the
corresponding signature outcome, never calls the storage adapter, sends
nothing to peers, and leaves the store unchanged. -/
theorem c4_thm : ∀ (verify : VerifyOracle) (store : MongoStore) (peers : List String)
    (name : String) (owner : Option String) (entry : Entry) (notify : Bool),
    (jsFalsy entry._id && !jsLooseEqZero entry._id) = false →
    optTruthy (resolvePublicKey owner (jsToString entry._id)) = true →
    verify entry._signature { entry with _signature := "" }
        ((resolvePublicKey owner (jsToString entry._id)).getD "") ≠ VerifyOutcome.ok true →
    ((insertOne verify true store peers name owner entry notify).outcome
        = InsertOutcome.sigInvalid
      ∨ (insertOne verify true store peers name owner entry notify).outcome
        = InsertOutcome.sigException)
    ∧ (insertOne verify true store peers name owner entry notify).storageCalls = []
    ∧ (insertOne verify true store peers name owner entry notify).sent = []
    ∧ (insertOne verify true store peers name owner entry notify).store = store := by
  intro verify store peers name owner entry notify hguard hkey hver
  cases hv : verify entry._signature { entry with _signature := "" }
      ((resolvePublicKey owner (jsToString entry._id)).getD "") with
  | exn =>
    refine ⟨Or.inr ?_, ?_, ?_, ?_⟩ <;> simp [insertOne, hguard, hkey, hv]
  | ok b =>
    cases b with
    | true => exact absurd hv hver
    | false =>
      refine ⟨Or.inl ?_, ?_, ?_, ?_⟩ <;> simp [insertOne, hguard, hkey, hv]

/-- C4 (witness): the theorem at a concrete run whose oracle rejects the
signature. -/
theorem c4_witness :
    ((insertOne rejectAll true [] ["peer1:4001"] "songs" (some "k") exEntry true).outcome
        = InsertOutcome.sigInvalid
      ∨ (insertOne rejectAll true [] ["peer1:4001"] "songs" (some "k") exEntry true).outcome
        = InsertOutcome.sigException)
    ∧ (insertOne rejectAll true [] ["peer1:4001"] "songs" (some "k") exEntry true).storageCalls = []
    ∧ (insertOne rejectAll true [] ["peer1:4001"] "songs" (some "k") exEntry true).sent = []
    ∧ (insertOne rejectAll true [] ["peer1:4001"] "songs" (some "k") exEntry true).store = [] :=
  c4_thm rejectAll [] ["peer1:4001"] "songs" (some "k") exEntry true
    (by decide) (by decide) (by decide)

/-- C7 (counterexample): an entry whose _id is the empty string — which does
not carry a non-empty entryId — is not rejected as MalformedEntry: the guard
admits it because the empty string is loosely equal to 0, and with an explicit
owner and a verifying signature the entry is passed to the storage adapter and
stored. -/
theorem c7_counterexample :
    (insertOne acceptAll true [] [] "songs" (some "k")
        (⟨.strV "", "aabb", []⟩ : Entry) true).outcome = InsertOutcome.ok (.strV "")
    ∧ (insertOne acceptAll true [] [] "songs" (some "k")
        (⟨.strV "", "aabb", []⟩ : Entry) true).storageCalls
      = [("songs/k", (⟨.strV "", "aabb", []⟩ : Entry))] := by
  decide

/-- C7 (amended): insertOne fails with MalformedEntry exactly when entry._id
is falsy and not loosely equal to 0 — that is, missing, undefined, null or NaN
— and in that case nothing is stored or propagated; falsy values loosely equal
to 0 (the number 0, the empty string, false) pass the guard. -/
theorem c7_amended : ∀ (verify : VerifyOracle) (store : MongoStore) (peers : List String)
    (name : String) (owner : Option String) (entry : Entry) (notify : Bool),
    ((insertOne verify true store peers name owner entry notify).outcome
        = InsertOutcome.malformedEntry
      ↔ (jsFalsy entry._id = true ∧ jsLooseEqZero entry._id = false))
    ∧ ((jsFalsy entry._id && !jsLooseEqZero entry._id) = true →
        (insertOne verify true store peers name owner entry notify).storageCalls = []
        ∧ (insertOne verify true store peers name owner entry notify).sent = []) := by
  intro verify store peers name owner entry notify
  constructor
  · constructor
    · intro hout
      by_contra hno
      have hguard : (jsFalsy entry._id && !jsLooseEqZero entry._id) = false := by
        cases hq : (jsFalsy entry._id && !jsLooseEqZero entry._id) with
        | false => rfl
        | true =>
          simp only [Bool.and_eq_true, Bool.not_eq_true'] at hq
          exact absurd hq hno
      simp only [insertOne, hguard] at hout
      simp at hout
      repeat' split at hout
      all_goals first
      | exact hout.elim
      | (simp at hout)
    · intro hg
      have hguard : (jsFalsy entry._id && !jsLooseEqZero entry._id) = true := by
        simp [hg.1, hg.2]
      simp [insertOne, hguard]
  · intro hguard
    constructor <;> simp [insertOne, hguard]

/-- C7 (witness): the amended theorem applied at an entry with undefined _id,
which the guard does reject, storing and sending nothing. -/
theorem c7_witness :
    (insertOne acceptAll true [] [] "songs" none (⟨.undef, "s", []⟩ : Entry) true).storageCalls = []
    ∧ (insertOne acceptAll true [] [] "songs" none (⟨.undef, "s", []⟩ : Entry) true).sent = [] :=
  (c7_amended acceptAll [] [] "songs" none ⟨.undef, "s", []⟩ true).2 (by decide)

/-- C3 (amended): when an entry with the same _id is already present in the
collection at the computed address, a second insertOne call lands in the
generic storage-error catch — the duplicate-key throw of the adapter — and
returns the storage-error outcome, indistinguishable from any other adapter
failure and not a distinguished already-exists success; it sends nothing to
peers and leaves the store unchanged. -/
theorem c3_amended : ∀ (verify : VerifyOracle) (store : MongoStore) (peers : List String)
    (name : String) (owner : Option String) (entry : Entry) (notify : Bool),
    (jsFalsy entry._id && !jsLooseEqZero entry._id) = false →
    optTruthy (resolvePublicKey owner (jsToString entry._id)) = true →
    verify entry._signature { entry with _signature := "" }
        ((resolvePublicKey owner (jsToString entry._id)).getD "") = VerifyOutcome.ok true →
    (getCollection store (insertAddress name owner)).any (fun x => x._id == entry._id) = true →
    (insertOne verify true store peers name owner entry notify).outcome
        = InsertOutcome.storeError "E11000 duplicate key"
    ∧ (insertOne verify true store peers name owner entry notify).sent = []
    ∧ (insertOne verify true store peers name owner entry notify).store = store
    ∧ ∀ i, (insertOne verify true store peers name owner entry notify).outcome
        ≠ InsertOutcome.ok i := by
  intro verify store peers name owner entry notify hguard hkey hver hdup
  have hm : mongoInsertOne (getCollection store (insertAddress name owner)) entry
      = Except.error "E11000 duplicate key" := by
    simp [mongoInsertOne, hdup]
  refine ⟨?_, ?_, ?_, ?_⟩ <;> simp [insertOne, hguard, hkey, hver, hm]

/-- C3 (counterexample): a concrete second insert of an entry already present
returns the storage-error outcome — the error path shared with every adapter
failure, not an already-exists success — while indeed not propagating. -/
theorem c3_counterexample :
    (insertOne acceptAll true [("songs/k", [exEntry])] [] "songs" (some "k") exEntry true).outcome
      = InsertOutcome.storeError "E11000 duplicate key"
    ∧ (insertOne acceptAll true [("songs/k", [exEntry])] [] "songs" (some "k") exEntry true).sent
      = []
    ∧ (insertOne acceptAll true [("songs/k", [exEntry])] [] "songs" (some "k") exEntry true).store
      = [("songs/k", [exEntry])] := by
  decide

/-- C3 (witness): the amended theorem applied at a concrete duplicate insert
with a connected peer, confirming no propagation happens. -/
theorem c3_witness :
    (insertOne acceptAll true [("songs/k2", [exEntry])] ["peerA:1"] "songs" (some "k2") exEntry
        true).outcome = InsertOutcome.storeError "E11000 duplicate key"
    ∧ (insertOne acceptAll true [("songs/k2", [exEntry])] ["peerA:1"] "songs" (some "k2") exEntry
        true).sent = []
    ∧ (insertOne acceptAll true [("songs/k2", [exEntry])] ["peerA:1"] "songs" (some "k2") exEntry
        true).store = [("songs/k2", [exEntry])] :=
  have h := c3_amended acceptAll [("songs/k2", [exEntry])] ["peerA:1"] "songs" (some "k2") exEntry
    true (by decide) (by decide) (by decide) (by decide)
  ⟨h.1, h.2.1, h.2.2.1⟩

/-- C1 (counterexample): on a concrete first-time successful insert with two
connected peers, the message sent carries no excludeAddresses field at all,
and it is delivered to every currently connected peer — including addresses
the claim places in the exclusion union (every connected peer is in that
union), which the claim says receive nothing. -/
theorem c1_counterexample :
    (insertOne acceptAll true [] ["peer1:4001", "peer2:4002"] "songs" none exEntry true).sent
      = [("peer1:4001", WireVal.replMsg (mkReplMsg "songs" none exEntry)),
         ("peer2:4002", WireVal.replMsg (mkReplMsg "songs" none exEntry))]
    ∧ (mkReplMsg "songs" none exEntry).excludeAddresses = none
    ∧ isOkOutcome
        (insertOne acceptAll true [] ["peer1:4001", "peer2:4002"] "songs" none exEntry
          true).outcome = true := by
  decide

/-- C1 (amended): on a notifying insertOne call the broadcast happens exactly
on first-time success, and what is sent is the replication message carrying
action, name, publicKeyOwner and entry — no exclusion set — delivered to every
currently connected peer with no exclusions; insertOne accepts no exclusion
set from its caller. -/
theorem c1_amended : ∀ (verify : VerifyOracle) (dbc : Bool) (store : MongoStore)
    (peers : List String) (name : String) (owner : Option String) (entry : Entry),
    (insertOne verify dbc store peers name owner entry true).sent
      = (if isOkOutcome (insertOne verify dbc store peers name owner entry true).outcome
          then sendToPeers peers (mkReplMsg name owner entry) else []) := by
  intro verify dbc store peers name owner entry
  simp only [insertOne]
  repeat' split
  all_goals try rfl
  all_goals simp_all [isOkOutcome]

/-- Connect-guard consequence: a successful guarded dial leaves the outbound
count at most the ceiling of min(maxConnections, peerCount / 2), computed over
the naturals as min maxConnections ((peerCount + 1) / 2). -/
theorem connectGuard_outbound_bound {mc pc : Nat} {s : PSState}
    (h : connectGuard mc pc s) : s.outbound + 1 ≤ min mc ((pc + 1) / 2) := by
  unfold connectGuard liveConnections at h
  obtain ⟨h1, h2⟩ := lt_min_iff.mp h
  have ho1 : (s.outbound : ℚ) ≤ ((s.outbound + s.inbound : ℕ) : ℚ) := by
    push_cast
    linarith [Nat.cast_nonneg (α := ℚ) s.inbound]
  have hmc : s.outbound < mc := by exact_mod_cast lt_of_le_of_lt ho1 h1
  have hpc : ((2 * s.outbound : ℕ) : ℚ) < (pc : ℚ) := by
    have hlt := lt_of_le_of_lt ho1 h2
    push_cast
    linarith
  have hpc2 : 2 * s.outbound < pc := by exact_mod_cast hpc
  refine le_min hmc ?_
  rw [Nat.le_div_iff_mul_le (by norm_num)]
  omega

/-- C5 (amended): a reconnection-loop dial is attempted only while the number
of live connections is below min(maxConnections, peerCount / 2) (real
division, the guard of the step relation), and consequently every reachable
registry state has at most the ceiling of that value, min maxConnections
((peerCount + 1) / 2), outbound connections. -/
theorem c5_amended : ∀ (mc pc : Nat) (s : PSState),
    PubSubReachable mc pc s → s.outbound ≤ min mc ((pc + 1) / 2) := by
  intro mc pc s h
  induction h with
  | refl => simp
  | tail hst step ih =>
    cases step with
    | connect hg => exact connectGuard_outbound_bound hg
    | accept => exact ih
    | closeOutbound => exact le_trans (Nat.sub_le _ _) ih
    | closeInbound => exact ih

/-- C5 (counterexample): with maxConnections 4 and 7 configured peers the
claimed bound is min(4, 7/2) = 3.5, yet the registry state with 4 outbound
connections is reachable — each of the four ticks passes the guard since 0, 1,
2, 3 are all below 3.5 — and 4 exceeds the claimed bound. -/
theorem c5_counterexample :
    PubSubReachable 4 7 ⟨4, 0⟩ ∧ ¬ ((4 : ℚ) ≤ min (4 : ℚ) ((7 : ℚ) / 2)) := by
  constructor
  · have g0 : connectGuard 4 7 ⟨0, 0⟩ := by
      unfold connectGuard liveConnections
      rw [lt_min_iff]
      constructor <;> norm_num
    have g1 : connectGuard 4 7 ⟨1, 0⟩ := by
      unfold connectGuard liveConnections
      rw [lt_min_iff]
      constructor <;> norm_num
    have g2 : connectGuard 4 7 ⟨2, 0⟩ := by
      unfold connectGuard liveConnections
      rw [lt_min_iff]
      constructor <;> norm_num
    have g3 : connectGuard 4 7 ⟨3, 0⟩ := by
      unfold connectGuard liveConnections
      rw [lt_min_iff]
      constructor <;> norm_num
    exact Relation.ReflTransGen.refl
      |>.tail (PubSubStep.connect ⟨0, 0⟩ g0)
      |>.tail (PubSubStep.connect ⟨1, 0⟩ g1)
      |>.tail (PubSubStep.connect ⟨2, 0⟩ g2)
      |>.tail (PubSubStep.connect ⟨3, 0⟩ g3)
  · rw [le_min_iff]
    norm_num

/-- C5 (witness): the amended theorem applied at the example of the claim,
maxConnections 2 with 7 configured peers: the state with two outbound
connections is reachable and the amended bound min 2 4 = 2 holds there. -/
theorem c5_witness :
    PubSubReachable 2 7 ⟨2, 0⟩ ∧ (⟨2, 0⟩ : PSState).outbound ≤ min 2 ((7 + 1) / 2) := by
  have g0 : connectGuard 2 7 ⟨0, 0⟩ := by
    unfold connectGuard liveConnections
    rw [lt_min_iff]
    constructor <;> norm_num
  have g1 : connectGuard 2 7 ⟨1, 0⟩ := by
    unfold connectGuard liveConnections
    rw [lt_min_iff]
    constructor <;> norm_num
  have hr : PubSubReachable 2 7 ⟨2, 0⟩ :=
    Relation.ReflTransGen.refl
      |>.tail (PubSubStep.connect ⟨0, 0⟩ g0)
      |>.tail (PubSubStep.connect ⟨1, 0⟩ g1)
  exact ⟨hr, c5_amended 2 7 ⟨2, 0⟩ hr⟩
